import Mathlib

/-!
Shallow embedding of the token-validation and tenant-resolution gateway of the
`acci_base` repository, together with theorems checking the natural-language
specification against it.

The embedding follows the Rust source:
* `src/common/middleware/auth.rs` — `AuthState::get_jwks`,
  `AuthState::create_decoding_key`, `AuthState::validate_keycloak_token`,
  `process_auth`;
* `src/common/middleware/tenant.rs` — `TenantMiddleware::call`,
  `Tenant::validate_active` (from `src/domain/tenant.rs`);
* `src/infrastructure/services/tenant_service.rs` — `TenantServiceImpl::find_by_id`;
* `src/common/middleware/tenant_middleware.rs` — `TenantInfo::from_request_parts`.

Strings are modelled as Lean `String`s (lists of characters); external I/O
(the Redis cache store, the IdP HTTP endpoint, the database) is modelled by
explicit environments passed as arguments, so every definition is executable.
Signature verification by the `jsonwebtoken` crate is modelled symbolically: a
token records the key material and the algorithm with which it was signed, and
verification succeeds exactly when this matches the decoding key and header
algorithm.  The claim-validation semantics embedded below are those of the
`jsonwebtoken` 8.x crate as configured by the source: `Validation::new` gives
`leeway = 60`, `validate_exp = true`, `validate_nbf = false`,
`validate_aud = true` and required spec claims `{exp}`; the signature is
verified before any claim is validated, and the expiry check is
`exp < now - leeway` (on unsigned integers, here `Nat` with truncated
subtraction).
-/

/-! ## Characters and strings: helpers mirroring Rust `str` operations -/

/-- The character list of the role marker `"tenant_"` used by
`validate_keycloak_token` (`role.starts_with("tenant_")`). -/
def tenantMarker : List Char := "tenant_".data

/-- Boolean prefix test on character lists, mirroring Rust `str::starts_with`
for string patterns. -/
def isPrefixC : List Char → List Char → Bool
  | [], _ => true
  | _ :: _, [] => false
  | a :: as, b :: bs => a == b && isPrefixC as bs

/-- One fuelled pass of Rust `str::trim_start_matches("tenant_")`: repeatedly
drop the leading marker while it is present.  The fuel is the length of the
string, which suffices because each strip removes seven characters. -/
def trimTenantAux : Nat → List Char → List Char
  | 0, s => s
  | n + 1, s => if isPrefixC tenantMarker s then trimTenantAux n (s.drop 7) else s

/-- Rust `role.trim_start_matches("tenant_")`: removes **all** leading
repetitions of `"tenant_"`. -/
def trimTenantRepeated (s : List Char) : List Char := trimTenantAux s.length s

/-! ## Data model (`auth.rs`) -/

/-- `RealmAccess` — realm access containing user roles. -/
structure RealmAccess where
  roles : List String
deriving Repr, DecidableEq

/-- `Claims`-payload of a token, as deserialized by `jsonwebtoken::decode`.
The fields `sub`..`exp` are the repository's `Claims` struct; `iss` and `aud`
are the raw payload claims the `jsonwebtoken` validator additionally reads
(the repository's `Claims` struct does not carry them, but the crate validates
them from the raw payload). -/
structure JwtPayload where
  sub : String
  preferred_username : String
  email : Option String
  realm_access : Option RealmAccess
  exp : Nat
  iss : Option String
  aud : Option (List String)
deriving Repr, DecidableEq

/-- `UserInfo` — user information extracted from the validated token. -/
structure UserInfo where
  sub : String
  preferred_username : String
  email : Option String
  roles : List String
  tenant_id : Option String
deriving Repr, DecidableEq

/-- A JSON Web Key entry (`JwksKey`): key id, key type, RSA modulus and
exponent. -/
structure JwksKey where
  kid : String
  kty : String
  n : String
  e : String
deriving Repr, DecidableEq

/-- `Jwks` — a JSON Web Key Set: a list of keys. -/
structure Jwks where
  keys : List JwksKey
deriving Repr, DecidableEq

/-- JWT signing/verification algorithms used by the middleware. -/
inductive Alg where
  | HS256
  | RS256
deriving Repr, DecidableEq

/-- Decoding key material (`jsonwebtoken::DecodingKey`): either a symmetric
secret (`from_secret`) or an RSA public key (`from_rsa_components`). -/
inductive DecodingKey where
  | secret (s : String)
  | rsa (n e : String)
deriving Repr, DecidableEq

/-- A decoded JWT header: algorithm and optional key id. -/
structure JwtHeader where
  alg : Alg
  kid : Option String
deriving Repr, DecidableEq

/-- A structurally well-formed bearer token.  Signatures are modelled
symbolically: `sigKey`/`sigAlg` record the key material and algorithm the
token was actually signed with; cryptographic verification succeeds exactly
when they match the decoding key and the header algorithm. -/
structure Token where
  header : JwtHeader
  payload : JwtPayload
  sigKey : DecodingKey
  sigAlg : Alg
deriving Repr, DecidableEq

/-- The repository's `AppError` kinds that the gateway constructs
(`src/common/error.rs`, collapsed to the message-carrying kind). -/
inductive AppErr where
  | authenticationError (msg : String)
  | validationError (msg : String)
  | notFoundError (msg : String)
  | databaseError (msg : String)
  | tenantError (msg : String)
  | internalError (msg : String)
deriving Repr, DecidableEq

/-! ## Identity extraction (`validate_keycloak_token`, both branches) -/

/-- Tenant-id extraction from `realm_access`, exactly as in
`validate_keycloak_token`:
`realm_access.as_ref().and_then(|access| access.roles.iter()
   .find(|role| role.starts_with("tenant_"))
   .map(|role| role.trim_start_matches("tenant_").to_string()))`. -/
def extractTenantId (realm_access : Option RealmAccess) : Option String :=
  realm_access.bind fun access =>
    (access.roles.find? fun role => isPrefixC tenantMarker role.data).map
      fun role => String.mk (trimTenantRepeated role.data)

/-- Construction of `UserInfo` from a validated payload, as in both branches of
`validate_keycloak_token` (roles default to `[]` when `realm_access` is
absent). -/
def mkUserInfo (p : JwtPayload) : UserInfo :=
  { sub := p.sub
    preferred_username := p.preferred_username
    email := p.email
    roles := (p.realm_access.map fun access => access.roles).getD []
    tenant_id := extractTenantId p.realm_access }

/-! ## JWT validation (`jsonwebtoken` crate as configured by `auth.rs`) -/

/-- JWT error kinds of the `jsonwebtoken` crate reachable through this
configuration. -/
inductive JwtErr where
  | invalidSignature
  | invalidAlgorithm
  | expiredSignature
  | invalidIssuer
  | invalidAudience
  | missingRequiredClaim (c : String)
deriving Repr, DecidableEq

/-- `Display` strings of the reachable `jsonwebtoken` error kinds (the crate
prints the kind's debug name for these variants). -/
def JwtErr.toMessage : JwtErr → String
  | .invalidSignature => "InvalidSignature"
  | .invalidAlgorithm => "InvalidAlgorithm"
  | .expiredSignature => "ExpiredSignature"
  | .invalidIssuer => "InvalidIssuer"
  | .invalidAudience => "InvalidAudience"
  | .missingRequiredClaim c => "Missing required claim: " ++ c

/-- `jsonwebtoken::Validation`, restricted to the fields the middleware
configures. -/
structure ValidationCfg where
  required_spec_claims : List String
  leeway : Nat
  validate_exp : Bool
  validate_nbf : Bool
  validate_aud : Bool
  iss : Option (List String)
  aud : Option (List String)
  algorithms : List Alg
deriving Repr, DecidableEq

/-- Presence of a spec claim in the payload (the repository's `Claims` always
carries `exp`; `iss`/`aud` are optional raw-payload claims). -/
def claimPresent (p : JwtPayload) (c : String) : Bool :=
  if c == "exp" then true
  else if c == "iss" then p.iss.isSome
  else if c == "aud" then p.aud.isSome
  else true

/-- Claim validation of `jsonwebtoken` 8.x as configured here: required spec
claims first, then expiry (`exp < now - leeway`, truncated subtraction on
`Nat` mirroring the crate's unsigned arithmetic), then issuer, then audience.
`nbf` is never validated by this middleware (`validate_nbf` is `false` in the
test branch and left at its `false` default in production), so the payload
model carries no `nbf` claim.  An `iss`/`aud` claim absent from the payload is
not compared (consistent with the repository's passing test suite, whose
test-mode tokens carry neither claim while `set_issuer` is configured). -/
def validateClaims (cfg : ValidationCfg) (now : Nat) (p : JwtPayload) : Except JwtErr Unit :=
  match cfg.required_spec_claims.find? fun c => !claimPresent p c with
  | some c => .error (.missingRequiredClaim c)
  | none =>
    if cfg.validate_exp && decide (p.exp < now - cfg.leeway) then
      .error .expiredSignature
    else
      match cfg.iss with
      | some allowed =>
        match p.iss with
        | some i =>
          if allowed.contains i then checkAud cfg p else .error .invalidIssuer
        | none => checkAud cfg p
      | none => checkAud cfg p
where
  /-- Audience check: only performed when `validate_aud` is set and both the
  configured audience and the payload claim are present. -/
  checkAud (cfg : ValidationCfg) (p : JwtPayload) : Except JwtErr Unit :=
    if cfg.validate_aud then
      match cfg.aud with
      | some allowed =>
        match p.aud with
        | some auds =>
          if auds.any fun a => allowed.contains a then .ok () else .error .invalidAudience
        | none => .ok ()
      | none => .ok ()
    else .ok ()

/-- `jsonwebtoken::decode` as configured by the middleware: the header
algorithm must be among the allowed algorithms, the signature is verified
**before** any claim is validated, and on success the payload is returned. -/
def decodeToken (key : DecodingKey) (cfg : ValidationCfg) (now : Nat) (tok : Token) :
    Except JwtErr JwtPayload :=
  if !cfg.algorithms.contains tok.header.alg then
    .error .invalidAlgorithm
  else if !(tok.sigKey == key && tok.sigAlg == tok.header.alg) then
    .error .invalidSignature
  else
    match validateClaims cfg now tok.payload with
    | .error e => .error e
    | .ok _ => .ok tok.payload

/-! ## JWKS serialization (`serde_json` on `Jwks`) and the cache store -/

/-- Escaping of `"` and `\` inside a JSON string literal, as `serde_json`
emits for the key-set fields (the fields are base64url data in practice;
control-character escapes are not modelled). -/
def escChars : List Char → List Char
  | [] => []
  | c :: cs =>
    if c == '"' || c == '\\' then '\\' :: c :: escChars cs else c :: escChars cs

/-- Literal opening of a serialized key object, `{"kid":"`. -/
def litKid : List Char := "\x7b\"kid\":\"".data

/-- Literal between the `kid` and `kty` fields, `","kty":"`. -/
def litKty : List Char := ",\"kty\":\"".data

/-- Literal between the `kty` and `n` fields, `","n":"`. -/
def litN : List Char := ",\"n\":\"".data

/-- Literal between the `n` and `e` fields, `","e":"`. -/
def litE : List Char := ",\"e\":\"".data

/-- Literal closing of a serialized key object, `}`. -/
def litEnd : List Char := "\x7d".data

/-- Literal opening of the serialized key set, `{"keys":[`. -/
def litHead : List Char := "\x7b\"keys\":[".data

/-- Literal closing of the serialized key set, `]}`. -/
def litTail : List Char := "]\x7d".data

/-- Serialization of one `JwksKey` in `serde_json` field order
(`kid`, `kty`, `n`, `e`). -/
def serializeKeyChars (k : JwksKey) : List Char :=
  litKid ++ escChars k.kid.data ++ '"' ::
    (litKty ++ escChars k.kty.data ++ '"' ::
      (litN ++ escChars k.n.data ++ '"' ::
        (litE ++ escChars k.e.data ++ '"' :: litEnd)))

/-- Comma-joined serializations of a list of keys. -/
def joinComma : List (List Char) → List Char
  | [] => []
  | [x] => x
  | x :: xs => x ++ ',' :: joinComma xs

/-- `serde_json::to_string(&jwks)`. -/
def serializeJwks (j : Jwks) : String :=
  String.mk (litHead ++ joinComma (j.keys.map serializeKeyChars) ++ litTail)

/-- Consume an expected literal from the front of the input. -/
def dropLit : List Char → List Char → Option (List Char)
  | [], cs => some cs
  | _ :: _, [] => none
  | l :: ls, c :: cs => if c == l then dropLit ls cs else none

/-- Scan a JSON string body up to its closing quote, undoing `escChars`;
returns the contents and the input after the closing quote. -/
def scanString : List Char → Option (List Char × List Char)
  | [] => none
  | c :: cs =>
    if c == '\\' then
      match cs with
      | [] => none
      | d :: ds => (scanString ds).map fun p => (d :: p.1, p.2)
    else if c == '"' then some ([], cs)
    else (scanString cs).map fun p => (c :: p.1, p.2)

/-- Parse one serialized key object; returns the key and the remaining
input. -/
def parseKey (cs : List Char) : Option (JwksKey × List Char) :=
  match dropLit litKid cs with
  | none => none
  | some cs =>
    match scanString cs with
    | none => none
    | some (kid, cs) =>
      match dropLit litKty cs with
      | none => none
      | some cs =>
        match scanString cs with
        | none => none
        | some (kty, cs) =>
          match dropLit litN cs with
          | none => none
          | some cs =>
            match scanString cs with
            | none => none
            | some (n, cs) =>
              match dropLit litE cs with
              | none => none
              | some cs =>
                match scanString cs with
                | none => none
                | some (e, cs) =>
                  match dropLit litEnd cs with
                  | none => none
                  | some cs =>
                    some (⟨String.mk kid, String.mk kty, String.mk n, String.mk e⟩, cs)

/-- Parse a comma-separated non-empty sequence of key objects (fuelled). -/
def parseKeysAux : Nat → List Char → Option (List JwksKey × List Char)
  | 0, _ => none
  | fuel + 1, cs =>
    (parseKey cs).bind fun p =>
      if p.2.head? == some ',' then
        (parseKeysAux fuel (p.2.drop 1)).map fun q => (p.1 :: q.1, q.2)
      else some ([p.1], p.2)

/-- `serde_json::from_str::<Jwks>` on the strings this middleware writes. -/
def parseJwks (s : String) : Option Jwks :=
  match dropLit litHead s.data with
  | none => none
  | some cs =>
    if cs == litTail then some ⟨[]⟩
    else
      match parseKeysAux (cs.length + 1) cs with
      | none => none
      | some (ks, rest) =>
        if dropLit litTail rest == some [] then some ⟨ks⟩ else none

/-! ## `AuthState::get_jwks` -/

/-- Contents of the Redis key `keycloak:jwks`: `none` models a miss (no value,
or an expired TTL); `some s` an unexpired cached string. -/
structure RedisState where
  value : Option String
deriving Repr, DecidableEq

/-- Decidable equality for `Except`, needed to evaluate the model on concrete
environments. -/
instance {ε α : Type} [DecidableEq ε] [DecidableEq α] : DecidableEq (Except ε α) := fun x y =>
  match x, y with
  | .error a, .error b =>
    if h : a = b then .isTrue (by rw [h]) else .isFalse (by intro hc; cases hc; exact h rfl)
  | .ok a, .ok b =>
    if h : a = b then .isTrue (by rw [h]) else .isFalse (by intro hc; cases hc; exact h rfl)
  | .error _, .ok _ => .isFalse (by intro hc; cases hc)
  | .ok _, .error _ => .isFalse (by intro hc; cases hc)

/-- Outcome of the external operations `get_jwks` performs, fixed per call:
whether obtaining a Redis connection succeeds, whether the `GET` succeeds,
the result of the HTTP fetch from the Keycloak certs endpoint (already
JSON-decoded — a malformed payload is a `.error`), and whether the `SETEX`
write succeeds. -/
structure JwksEnv where
  connect : Except String Unit
  getOp : Except String Unit
  fetch : Except String Jwks
  setOp : Except String Unit
deriving Repr, DecidableEq

/-- The fetch-and-cache tail of `get_jwks`: fetch from Keycloak, serialize,
write through to Redis with the configured TTL, return the fetched set
(any failure, including the cache write, fails the call). -/
def fetchAndCache (env : JwksEnv) (_st : RedisState) : Except AppErr (Jwks × RedisState) :=
  match env.fetch with
  | .error e => .error (.authenticationError ("Failed to fetch JWKS: " ++ e))
  | .ok jwks =>
    match env.setOp with
    | .error e => .error (.authenticationError ("Failed to cache JWKS: " ++ e))
    | .ok _ => .ok (jwks, ⟨some (serializeJwks jwks)⟩)

/-- `AuthState::get_jwks`: connect to Redis, `GET` the cached JWKS, use it if
it deserializes, otherwise fetch from Keycloak and cache the result.  Redis
connection and `GET` failures are mapped to `AuthenticationError` and
propagated (they do **not** fall through to a live fetch). -/
def get_jwks (env : JwksEnv) (st : RedisState) : Except AppErr (Jwks × RedisState) :=
  match env.connect with
  | .error e => .error (.authenticationError ("Redis connection failed: " ++ e))
  | .ok _ =>
    match env.getOp with
    | .error e => .error (.authenticationError ("Redis get failed: " ++ e))
    | .ok _ =>
      match st.value with
      | some s =>
        match parseJwks s with
        | some jwks => .ok (jwks, st)
        | none => fetchAndCache env st
      | none => fetchAndCache env st

/-! ## `AuthState::create_decoding_key` and `validate_keycloak_token` -/

/-- `AuthState::create_decoding_key`: select by the token header's `kid` when
present (error `"No key found with kid: …"` when no entry matches), fall back
to the first entry when absent (error `"No keys found in JWKS"` on an empty
set), and build an RSA decoding key from the selected entry's components. -/
def create_decoding_key (jwks : Jwks) (tok : Token) : Except AppErr DecodingKey :=
  match tok.header.kid with
  | some kid =>
    match jwks.keys.find? fun k => k.kid == kid with
    | some k => .ok (.rsa k.n k.e)
    | none => .error (.authenticationError ("No key found with kid: " ++ kid))
  | none =>
    match jwks.keys.head? with
    | some k => .ok (.rsa k.n k.e)
    | none => .error (.authenticationError "No keys found in JWKS")

/-- `KeycloakConfig` (from `src/common/config.rs`). -/
structure KeycloakConfig where
  url : String
  realm : String
  client_id : String
  client_secret : String
  verify_token : Bool
  public_key_cache_ttl : Nat
deriving Repr, DecidableEq

/-- The fixed symmetric test secret of the test branch. -/
def testSecret : String := "acci_test_key_do_not_use_in_production_2024"

/-- The `Validation` built by the test branch: `Validation::new(HS256)` then
`validate_exp = true`, `validate_nbf = false`, `validate_aud = false`,
`required_spec_claims.clear()`, `set_issuer(&[""])`, `leeway = 0`. -/
def testValidation : ValidationCfg :=
  { required_spec_claims := []
    leeway := 0
    validate_exp := true
    validate_nbf := false
    validate_aud := false
    iss := some [""]
    aud := none
    algorithms := [.HS256] }

/-- The `Validation` built by the production branch: `Validation::new(RS256)`
(leeway 60, `validate_exp`/`validate_aud` true, required claims `{exp}`), then
`set_audience(&[client_id])` and `set_issuer(&[url ++ "/realms/" ++ realm])`. -/
def prodValidation (cfg : KeycloakConfig) : ValidationCfg :=
  { required_spec_claims := ["exp"]
    leeway := 60
    validate_exp := true
    validate_nbf := false
    validate_aud := true
    iss := some [cfg.url ++ "/realms/" ++ cfg.realm]
    aud := some [cfg.client_id]
    algorithms := [.RS256] }

/-- `AuthState::validate_keycloak_token`.  With `verify_token` disabled (test
mode) the token is decoded against the fixed symmetric secret and
`testValidation`, without touching the JWKS cache; otherwise the JWKS is
retrieved via `get_jwks`, a decoding key selected via `create_decoding_key`,
and the token decoded against `prodValidation`. -/
def validate_keycloak_token (cfg : KeycloakConfig) (env : JwksEnv) (st : RedisState)
    (now : Nat) (tok : Token) : Except AppErr UserInfo :=
  if !cfg.verify_token then
    match decodeToken (.secret testSecret) testValidation now tok with
    | .error e =>
      .error (.authenticationError ("Test token validation failed: " ++ e.toMessage))
    | .ok p => .ok (mkUserInfo p)
  else
    match get_jwks env st with
    | .error e => .error e
    | .ok (jwks, _) =>
      match create_decoding_key jwks tok with
      | .error e => .error e
      | .ok key =>
        match decodeToken key (prodValidation cfg) now tok with
        | .error e =>
          .error (.authenticationError ("Token validation failed: " ++ e.toMessage))
        | .ok p => .ok (mkUserInfo p)

/-! ## The auth middleware (`process_auth`) -/

/-- `Tenant` (from `src/domain/tenant.rs`); settings are reduced to the fields
and carry no behaviour relevant to the middleware. -/
structure TenantFeatures where
  advanced_security : Bool
  custom_branding : Bool
  api_access : Bool
  audit_logging : Bool
deriving Repr, DecidableEq

/-- `TenantSettings`. -/
structure TenantSettings where
  max_users : Int
  storage_limit : Int
  api_rate_limit : Int
  features : TenantFeatures
deriving Repr, DecidableEq

/-- `Tenant`.  The id is kept as its canonical (hyphenated, lowercase) UUID
string. -/
structure Tenant where
  id : String
  name : String
  domain : String
  is_active : Bool
  settings : TenantSettings
deriving Repr, DecidableEq

/-- `TenantContext` — tenant plus request id, inserted into the request
extensions by the tenant middleware. -/
structure TenantContext where
  tenant : Tenant
  request_id : String
deriving Repr, DecidableEq

/-- An HTTP request as the two middlewares see it: start-line data, headers
(name/value pairs; lookup is case-insensitive on the name), a body, and the
two extension slots this code touches. -/
structure Request where
  uri : String
  method : String
  headers : List (String × String)
  body : String
  userInfo : Option UserInfo
  tenantCtx : Option TenantContext
deriving Repr, DecidableEq

/-- ASCII lowercasing of a character (header names are ASCII). -/
def asciiLower (c : Char) : Char :=
  if 65 ≤ c.toNat && c.toNat ≤ 90 then Char.ofNat (c.toNat + 32) else c

/-- Case-insensitive header lookup (`HeaderMap::get` matches names
case-insensitively; the first matching value is returned). -/
def getHeader (req : Request) (name : String) : Option String :=
  (req.headers.find? fun p => p.1.data.map asciiLower == name.data.map asciiLower).map
    fun p => p.2

/-- `HeaderValue::to_str` succeeds only for visible-ASCII values
(bytes 32..=126). -/
def headerToStr (v : String) : Option String :=
  if v.data.all fun c => 32 ≤ c.toNat && c.toNat ≤ 126 then some v else none

/-- The bearer token of a request:
`headers().get("Authorization").and_then(to_str).and_then(strip "Bearer ")`. -/
def bearerToken (req : Request) : Option String :=
  ((getHeader req "Authorization").bind headerToStr).bind fun h =>
    if isPrefixC ("Bearer ").data h.data then some (String.mk (h.data.drop 7)) else none

/-- `process_auth`, abstracted over the token validator (in the source,
`state.validate_keycloak_token`).  A missing/unusable Authorization header is
a 401; a validation failure is a 401; on success the `UserInfo` is attached
and a **new** request with the same uri, method, headers and extensions but an
**empty body** is handed to the downstream handler.  The `Except` value `.ok`
carries exactly the request the downstream handler receives; `.error` is the
status returned without invoking it. -/
def process_auth (validate : String → Except AppErr UserInfo) (req : Request) :
    Except Nat Request :=
  match bearerToken req with
  | none => .error 401
  | some token =>
    match validate token with
    | .error _ => .error 401
    | .ok user_info =>
      .ok { uri := req.uri
            method := req.method
            headers := req.headers
            body := ""
            userInfo := some user_info
            tenantCtx := req.tenantCtx }

/-! ## The tenant middleware (`TenantMiddleware::call`) -/

/-- `Tenant::validate_active` (`src/domain/tenant.rs`): an inactive tenant is a
`Tenant`-kind error. -/
def validate_active (t : Tenant) : Except AppErr Unit :=
  if !t.is_active then .error (.tenantError "Tenant is not active") else .ok ()

/-- The external tenant-lookup collaborator (`TenantService`). -/
structure TenantSvc where
  find_by_id : String → Except AppErr Tenant
  find_by_domain : String → Except AppErr Tenant

/-- Display string of an `AppErr` (the `{}` formatting used in
`format!("Tenant error: {}", e)`). -/
def AppErr.toMessage : AppErr → String
  | .authenticationError m => "Authentication error: " ++ m
  | .validationError m => "Validation error: " ++ m
  | .notFoundError m => "Not found error: " ++ m
  | .databaseError m => "Database error: " ++ m
  | .tenantError m => "Tenant error: " ++ m
  | .internalError m => "Internal error: " ++ m

/-- Outcome of the tenant middleware: a terminal error response with a status
code, or the enriched request forwarded to the inner service. -/
inductive TenantOutcome where
  | rejected (status : Nat) (body : String)
  | forwarded (req : Request)
deriving Repr, DecidableEq

/-- The request id taken by the middleware:
`headers().get("X-Request-ID").map(|h| h.to_str().unwrap_or("unknown")).unwrap_or("unknown")`. -/
def requestIdOf (req : Request) : String :=
  match getHeader req "X-Request-ID" with
  | some v => (headerToStr v).getD "unknown"
  | none => "unknown"

/-- Error handling and context attachment shared by both lookup branches of
`TenantMiddleware::call`: a lookup error is a 404, an inactive tenant a 403,
otherwise the `TenantContext` is attached and the request forwarded. -/
def afterLookup (tenant_result : Except AppErr Tenant) (req : Request) : TenantOutcome :=
  match tenant_result with
  | .error e => .rejected 404 ("Tenant error: " ++ e.toMessage)
  | .ok tenant =>
    match validate_active tenant with
    | .error e => .rejected 403 ("Tenant error: " ++ e.toMessage)
    | .ok _ =>
      .forwarded { req with tenantCtx := some ⟨tenant, requestIdOf req⟩ }

/-- `TenantMiddleware::call`: resolve via the `X-Tenant-ID` header when
present (a non-ASCII header value is a 400), otherwise via the `Host` header
domain (a missing/unreadable `Host` is a 400), then validate and forward. -/
def tenantCall (svc : TenantSvc) (req : Request) : TenantOutcome :=
  match getHeader req "X-Tenant-ID" with
  | some v =>
    match headerToStr v with
    | some id => afterLookup (svc.find_by_id id) req
    | none => .rejected 400 "Invalid tenant header value"
  | none =>
    match (getHeader req "Host").bind headerToStr with
    | some domain => afterLookup (svc.find_by_domain domain) req
    | none => .rejected 400 "Missing host header and tenant ID"

/-! ## UUID parsing (`uuid::Uuid::parse_str`) and `TenantServiceImpl::find_by_id` -/

/-- Hex-digit test (case-insensitive). -/
def isHexC (c : Char) : Bool :=
  (48 ≤ c.toNat && c.toNat ≤ 57) || (97 ≤ c.toNat && c.toNat ≤ 102) ||
    (65 ≤ c.toNat && c.toNat ≤ 70)

/-- Take exactly `n` hex digits from the front of the input. -/
def takeHex : Nat → List Char → Option (List Char × List Char)
  | 0, cs => some ([], cs)
  | _ + 1, [] => none
  | n + 1, c :: cs =>
    if isHexC c then (takeHex n cs).map fun p => (c :: p.1, p.2) else none

/-- Parse the hyphenated UUID format `xxxxxxxx-xxxx-xxxx-xxxx-xxxxxxxxxxxx`,
returning the 32 hex digits. -/
def parseHyphenated (cs : List Char) : Option (List Char) :=
  match takeHex 8 cs with
  | some (g1, '-' :: cs) =>
    match takeHex 4 cs with
    | some (g2, '-' :: cs) =>
      match takeHex 4 cs with
      | some (g3, '-' :: cs) =>
        match takeHex 4 cs with
        | some (g4, '-' :: cs) =>
          match takeHex 12 cs with
          | some (g5, []) => some (g1 ++ g2 ++ g3 ++ g4 ++ g5)
          | _ => none
        | _ => none
      | _ => none
    | _ => none
  | _ => none

/-- Opening brace character (of the braced UUID format). -/
def braceOpen : Char := Char.ofNat 123

/-- Closing brace character (of the braced UUID format). -/
def braceClose : Char := Char.ofNat 125

/-- The literal prefix of the URN UUID format. -/
def urnMarker : List Char := "urn:uuid:".data

/-- `uuid::Uuid::parse_str`: accepts the simple (32 hex digits), hyphenated,
braced-hyphenated and URN formats, dispatching on length as the crate does.
Returns the 32 lowercase hex digits. -/
def parseUuid (s : String) : Option (List Char) :=
  let cs := s.data
  if cs.length == 32 then
    if cs.all isHexC then some (cs.map Char.toLower) else none
  else if cs.length == 36 then
    (parseHyphenated cs).map fun d => d.map Char.toLower
  else if cs.length == 38 then
    match cs with
    | c :: rest =>
      if c == braceOpen && rest.getLast? == some braceClose then
        (parseHyphenated rest.dropLast).map fun d => d.map Char.toLower
      else none
    | [] => none
  else if cs.length == 45 then
    if isPrefixC urnMarker cs then
      (parseHyphenated (cs.drop 9)).map fun d => d.map Char.toLower
    else none
  else none

/-- `Uuid::to_string`: the canonical hyphenated form of 32 hex digits. -/
def uuidToString (d : List Char) : String :=
  String.mk (d.take 8 ++ '-' :: ((d.drop 8).take 4 ++ '-' ::
    ((d.drop 12).take 4 ++ '-' :: ((d.drop 16).take 4 ++ '-' :: d.drop 20))))

/-- `TenantServiceImpl::find_by_id`, abstracted over the database
(`queryById`, keyed by the parsed UUID's digits; `.error` is a failed query,
`.ok none` an empty result).  A string that does not parse as a UUID is
rejected with a validation error before the database is consulted. -/
def tenantService_find_by_id (queryById : List Char → Except String (Option Tenant))
    (id : String) : Except AppErr Tenant :=
  match parseUuid id with
  | none => .error (.validationError "Invalid UUID format")
  | some u =>
    match queryById u with
    | .error e => .error (.databaseError e)
    | .ok none => .error (.notFoundError "Tenant not found")
    | .ok (some t) => .ok t

/-- `TenantInfo` (from `tenant_middleware.rs`). -/
structure TenantInfo where
  tenant : Tenant
  request_id : String
deriving Repr, DecidableEq

/-- `TenantInfo::from_request_parts`, abstracted over the database connection
attempt and the query.  `fresh_request_id` stands for the `Uuid::new_v4()`
generated when no `X-Request-ID` header is present.  The rejection carries the
`AppError` the source converts into a response. -/
def tenantInfo_from_request_parts (connect : Except String Unit)
    (queryById : List Char → Except String (Option Tenant))
    (req : Request) (fresh_request_id : String) : Except AppErr TenantInfo :=
  match getHeader req "X-Tenant-ID" with
  | none => .error (.validationError "Missing X-Tenant-ID header")
  | some v =>
    match headerToStr v with
    | none => .error (.validationError "Invalid tenant ID format")
    | some tenant_id_str =>
      match parseUuid tenant_id_str with
      | none => .error (.validationError "Invalid tenant ID")
      | some tenant_id =>
        let request_id :=
          match getHeader req "X-Request-ID" with
          | some v => (headerToStr v).getD ""
          | none => fresh_request_id
        match connect with
        | .error _ => .error (.databaseError "Failed to connect to database")
        | .ok _ =>
          match tenantService_find_by_id queryById (uuidToString tenant_id) with
          | .error _ => .error (.tenantError "Tenant not found")
          | .ok tenant =>
            if !tenant.is_active then .error (.tenantError "Tenant is not active")
            else .ok ⟨tenant, request_id⟩

/-! ## Concrete instances used by the witnesses -/

/-- The test-suite Keycloak configuration (test mode: `verify_token = false`). -/
def testCfg : KeycloakConfig :=
  { url := "http://localhost:8080"
    realm := "test-realm"
    client_id := "test-client"
    client_secret := "test-secret"
    verify_token := false
    public_key_cache_ttl := 3600 }

/-- The same configuration with production verification enabled. -/
def prodCfg : KeycloakConfig := { testCfg with verify_token := true }

/-- A sample key set with two RSA keys. -/
def jwksA : Jwks := ⟨[⟨"kidA", "RSA", "modA", "AQAB"⟩, ⟨"kidB", "RSA", "modB", "AQAB"⟩]⟩

/-- A healthy environment: Redis reachable, IdP serving `jwksA`. -/
def envOk : JwksEnv := ⟨.ok (), .ok (), .ok jwksA, .ok ()⟩

/-- An environment whose Redis connection fails while the IdP is reachable. -/
def envConnFail : JwksEnv := ⟨.error ("connection refused"), .ok (), .ok jwksA, .ok ()⟩

/-- An environment with healthy Redis but an unreachable IdP. -/
def envIdpDown : JwksEnv := ⟨.ok (), .ok (), .error ("connect timeout"), .ok ()⟩

/-- The empty cache state (miss). -/
def stEmpty : RedisState := ⟨none⟩

/-- A cache state holding the serialization of `jwksA`. -/
def stCached : RedisState := ⟨some (serializeJwks jwksA)⟩

/-- A payload with roles `["user", "tenant_acme"]`, expiring at time 2000. -/
def payloadAcme : JwtPayload :=
  ⟨"user-1", "alice", none, some ⟨["user", "tenant_acme"]⟩, 2000, some (""), none⟩

/-- A payload whose first marker role has a doubled `tenant_` marker. -/
def payloadDouble : JwtPayload :=
  ⟨"user-3", "carol", none, some ⟨["user", "tenant_tenant_acme"]⟩, 2000, some (""), none⟩

/-- A token over `payloadAcme`, correctly signed with the fixed test secret. -/
def tokenAcme : Token := ⟨⟨.HS256, none⟩, payloadAcme, .secret testSecret, .HS256⟩

/-- A token over `payloadDouble`, correctly signed with the fixed test secret. -/
def tokenDouble : Token := ⟨⟨.HS256, none⟩, payloadDouble, .secret testSecret, .HS256⟩

/-- A token over `payloadAcme` signed with the wrong symmetric secret. -/
def tokenBadSig : Token := ⟨⟨.HS256, none⟩, payloadAcme, .secret ("other_secret"), .HS256⟩

/-- A production payload carrying the configured issuer and audience. -/
def payloadProd : JwtPayload :=
  ⟨"user-2", "bob", none, some ⟨["tenant_beta"]⟩, 2000,
    some ("http://localhost:8080/realms/test-realm"), some ["test-client"]⟩

/-- A production token signed with the RSA key `kidA` of `jwksA`. -/
def tokenProd : Token := ⟨⟨.RS256, some ("kidA")⟩, payloadProd, .rsa ("modA") ("AQAB"), .RS256⟩

/-- A token validator that always fails. -/
def validateAlwaysFail : String → Except AppErr UserInfo :=
  fun _ => .error (.authenticationError "bad token")

/-- The user attached by `validateStub`. -/
def uiStub : UserInfo := ⟨"user-1", "alice", none, ["user", "tenant_acme"], some ("acme")⟩

/-- A token validator accepting exactly the token string `"tok"`. -/
def validateStub : String → Except AppErr UserInfo :=
  fun t => if t == "tok" then .ok uiStub else .error (.authenticationError "bad token")

/-- A request with no Authorization header. -/
def reqNoAuth : Request := ⟨"/test", "GET", [("Host", "acme.example.com")], "", none, none⟩

/-- A request with a bearer token and a non-empty body. -/
def reqTok : Request :=
  ⟨"/test", "POST", [("Authorization", "Bearer tok"), ("Host", "acme.example.com")],
    "hello body", none, none⟩

/-- The request `process_auth validateStub reqTok` forwards downstream. -/
def outTok : Request :=
  ⟨"/test", "POST", [("Authorization", "Bearer tok"), ("Host", "acme.example.com")],
    "", some uiStub, none⟩

/-- Default tenant settings. -/
def settingsDefault : TenantSettings := ⟨100, 1073741824, 1000, ⟨false, false, false, false⟩⟩

/-- An active tenant. -/
def tenantActive : Tenant :=
  ⟨"550e8400-e29b-41d4-a716-446655440000", "Acme", "acme.example.com", true, settingsDefault⟩

/-- An inactive tenant. -/
def tenantInactive : Tenant :=
  ⟨"6ba7b810-9dad-11d1-80b4-00c04fd430c8", "Beta", "beta.example.com", false, settingsDefault⟩

/-- A tenant service knowing `tenantActive` under id `"t-1"`/domain
`"acme.example.com"` and `tenantInactive` under id `"t-2"`. -/
def svcA : TenantSvc :=
  { find_by_id := fun id =>
      if id == "t-1" then .ok tenantActive
      else if id == "t-2" then .ok tenantInactive
      else .error (.notFoundError "Tenant not found")
    find_by_domain := fun d =>
      if d == "acme.example.com" then .ok tenantActive
      else .error (.notFoundError "Tenant not found") }

/-- A request carrying `X-Tenant-ID: t-1`. -/
def reqTenantHeader : Request := ⟨"/", "GET", [("X-Tenant-ID", "t-1")], "", none, none⟩

/-- A request carrying `X-Tenant-ID: t-2` (inactive tenant). -/
def reqTenantInactive : Request := ⟨"/", "GET", [("X-Tenant-ID", "t-2")], "", none, none⟩

/-- A request carrying an unknown `X-Tenant-ID`. -/
def reqTenantUnknown : Request := ⟨"/", "GET", [("X-Tenant-ID", "unknown-id")], "", none, none⟩

/-- A request carrying only a Host header. -/
def reqHostOnly : Request := ⟨"/", "GET", [("Host", "acme.example.com")], "", none, none⟩

/-- A request with neither `X-Tenant-ID` nor `Host`. -/
def reqBare : Request := ⟨"/", "GET", [], "", none, none⟩

/-- A database query that fails on every id. -/
def queryFail : List Char → Except String (Option Tenant) := fun _ => .error ("db down")

/-- A database query that finds `tenantActive` for every id. -/
def queryHit : List Char → Except String (Option Tenant) := fun _ => .ok (some tenantActive)

/-! ## Round-trip of the JWKS codec -/

/-- Consuming a literal that was just prepended succeeds and returns the
remainder. -/
theorem dropLit_append (l cs : List Char) : dropLit l (l ++ cs) = some cs := by
  induction l with
  | nil => rfl
  | cons c ls ih => simp [dropLit, ih]

/-- Unfolding equation of `scanString` on a cons cell. -/
theorem scanString_cons (c : Char) (cs : List Char) :
    scanString (c :: cs) =
      if c == '\\' then
        (match cs with
         | [] => none
         | d :: ds => (scanString ds).map fun p => (d :: p.1, p.2))
      else if c == '"' then some ([], cs)
      else (scanString cs).map fun p => (c :: p.1, p.2) := by
  rw [scanString.eq_def]

/-- `scanString` undoes `escChars` up to the closing quote. -/
theorem scanString_escChars (s rest : List Char) :
    scanString (escChars s ++ '"' :: rest) = some (s, rest) := by
  induction s with
  | nil => simp [escChars, scanString_cons]
  | cons c cs ih =>
    by_cases h : (c == '"' || c == '\\') = true
    · simp [escChars, h, scanString_cons, ih]
    · simp only [Bool.or_eq_true, beq_iff_eq, not_or] at h
      simp [escChars, h, scanString_cons, ih]

/-- `parseKey` undoes `serializeKeyChars`. -/
theorem parseKey_serialize (k : JwksKey) (rest : List Char) :
    parseKey (serializeKeyChars k ++ rest) = some (k, rest) := by
  simp [serializeKeyChars, parseKey, List.append_assoc, dropLit_append, scanString_escChars]

/-- A serialized key is never empty. -/
theorem one_le_serializeKey_length (k : JwksKey) : 1 ≤ (serializeKeyChars k).length := by
  simp only [serializeKeyChars, List.length_append, List.length_cons]
  omega

/-- The serialized key list is at least as long as the key list. -/
theorem length_le_joinComma (ks : List JwksKey) :
    ks.length ≤ (joinComma (ks.map serializeKeyChars)).length := by
  induction ks with
  | nil => simp [joinComma]
  | cons k ks ih =>
    cases ks with
    | nil => simpa [joinComma] using one_le_serializeKey_length k
    | cons k' ks' =>
      have h1 := one_le_serializeKey_length k
      simp only [List.map_cons, joinComma, List.length_append, List.length_cons] at *
      omega

/-- `parseKeysAux` undoes the comma-joined key serialization, given enough
fuel and a remainder that does not begin with a comma. -/
theorem parseKeysAux_serialize :
    ∀ (ks : List JwksKey) (fuel : Nat) (rest : List Char), ks ≠ [] →
      ks.length ≤ fuel → rest.head? ≠ some ',' →
      parseKeysAux fuel (joinComma (ks.map serializeKeyChars) ++ rest) = some (ks, rest) := by
  intro ks
  induction ks with
  | nil => intro fuel rest h _ _; cases h rfl
  | cons k ks ih =>
    intro fuel rest _ hfuel hrest
    cases fuel with
    | zero => simp at hfuel
    | succ fuel =>
      cases ks with
      | nil =>
        have h1 := parseKey_serialize k rest
        simp [joinComma, parseKeysAux, h1]
        intro hc
        exact absurd hc hrest
      | cons k' ks' =>
        have h1 := parseKey_serialize k
          (',' :: (joinComma ((k' :: ks').map serializeKeyChars) ++ rest))
        have h2 := ih fuel rest (by simp)
          (by simp only [List.length_cons] at hfuel ⊢; omega) hrest
        simp only [List.map_cons] at h1 h2
        simp [parseKeysAux, joinComma, List.append_assoc, h1, h2]

/-- Deserialization is a left inverse of serialization on key sets: the
`serde_json` round-trip of a `Jwks` value reproduces it exactly. -/
theorem parseJwks_serializeJwks (j : Jwks) : parseJwks (serializeJwks j) = some j := by
  obtain ⟨ks⟩ := j
  cases ks with
  | nil => decide
  | cons k ks' =>
    have hne : ((joinComma ((k :: ks').map serializeKeyChars) ++ litTail) == litTail) = false := by
      rw [beq_eq_false_iff_ne]
      intro hc
      have hlen := length_le_joinComma (k :: ks')
      have h1 := one_le_serializeKey_length k
      have := congrArg List.length hc
      simp only [List.length_append, List.length_cons, List.map_cons, joinComma] at *
      omega
    have hkeys := parseKeysAux_serialize (k :: ks')
      ((joinComma ((k :: ks').map serializeKeyChars) ++ litTail).length + 1) litTail
      (by simp)
      (by
        have := length_le_joinComma (k :: ks')
        simp only [List.length_append, List.length_cons] at *
        omega)
      (by decide)
    have hdrop2 : dropLit litTail litTail = some [] := by
      have := dropLit_append litTail []
      simpa using this
    simp only [List.map_cons, joinComma] at hne hkeys
    simp only [List.length_append] at hkeys
    simp [parseJwks, serializeJwks, List.append_assoc, dropLit_append, hne, hkeys, hdrop2,
      joinComma]

theorem isPrefixC_iff : ∀ (p s : List Char), isPrefixC p s = true ↔ p <+: s
  | [], s => by simp [isPrefixC]
  | a :: as, [] => by simp [isPrefixC]
  | a :: as, b :: bs => by
    simp [isPrefixC, List.cons_prefix_cons, isPrefixC_iff as bs]

theorem marker_decomp (s : List Char) (h : isPrefixC tenantMarker s = true) :
    s = tenantMarker ++ s.drop 7 := by
  rw [isPrefixC_iff] at h
  obtain ⟨t, ht⟩ := h
  subst ht
  have h7 : tenantMarker.length = 7 := by decide
  rw [← h7, List.drop_left]

def markerRep (k : Nat) : List Char := (List.replicate k tenantMarker).flatten

theorem markerRep_succ (k : Nat) : markerRep (k + 1) = tenantMarker ++ markerRep k := by
  simp [markerRep, List.replicate_succ]

theorem trimTenantAux_spec :
    ∀ (n : Nat) (s : List Char), s.length ≤ n →
      isPrefixC tenantMarker (trimTenantAux n s) = false ∧
      ∃ k, s = markerRep k ++ trimTenantAux n s := by
  intro n
  induction n with
  | zero =>
    intro s hs
    have : s = [] := List.eq_nil_of_length_eq_zero (Nat.le_zero.mp hs)
    subst this
    exact ⟨by decide, 0, rfl⟩
  | succ n ih =>
    intro s hs
    by_cases h : isPrefixC tenantMarker s = true
    · have hdec := marker_decomp s h
      have hlen : (s.drop 7).length ≤ n := by
        have := List.length_drop 7 s
        omega
      obtain ⟨hpref, k, hk⟩ := ih (s.drop 7) hlen
      have htrim : trimTenantAux (n + 1) s = trimTenantAux n (s.drop 7) := by
        simp [trimTenantAux, h]
      refine ⟨by rw [htrim]; exact hpref, k + 1, ?_⟩
      rw [markerRep_succ, htrim, List.append_assoc, ← hk]
      exact hdec
    · have hb : isPrefixC tenantMarker s = false := by simpa using h
      have htrim : trimTenantAux (n + 1) s = s := by simp [trimTenantAux, hb]
      exact ⟨by rw [htrim]; exact hb, 0, by rw [htrim]; rfl⟩

theorem trimTenantRepeated_spec (s : List Char) :
    isPrefixC tenantMarker (trimTenantRepeated s) = false ∧
    ∃ k, s = markerRep k ++ trimTenantRepeated s :=
  trimTenantAux_spec s.length s (Nat.le_refl _)

/-- `find?` returns the first element satisfying the predicate when the list
splits into a prefix of non-matches, that element, and a remainder. -/
theorem find?_first_match {α : Type} (p : α → Bool) (pre : List α) (r : α) (suf : List α)
    (hpre : ∀ x ∈ pre, p x = false) (hr : p r = true) :
    (pre ++ r :: suf).find? p = some r := by
  induction pre with
  | nil => simp [List.find?_cons_of_pos, hr]
  | cons a as ih =>
    have ha := hpre a (by simp)
    rw [List.cons_append, List.find?_cons, ha]
    exact ih fun x hx => hpre x (by simp [hx])

/-! ## Claim theorems -/

/-- **C5** (counterexample): identity extraction is claimed to set `tenant_id`
to the `<id>` part of the first role carrying the `tenant_` marker.  For the
role `"tenant_tenant_acme"` the `<id>` part after the single marker is
`"tenant_acme"`, but `trim_start_matches` removes **all** leading repetitions
of the marker, so the code produces `"acme"`. -/
theorem extractTenantId_counterexample :
    extractTenantId (some ⟨["user", "tenant_tenant_acme"]⟩) = some ("acme") ∧
    (mkUserInfo payloadDouble).tenant_id = some ("acme") ∧
    some ("acme") ≠ some ("tenant_acme") :=
  ⟨by decide, by decide, by decide⟩

/-- **C5** (amended): identity extraction is a pure function of the claims;
the roles are scanned in order for the first role with the `tenant_` marker,
and `tenant_id` is that role with **all leading repetitions** of `tenant_`
removed (for a role with a single marker this is exactly the `<id>` part);
with no marker role, or no roles at all, `tenant_id` is `none`. -/
theorem extractTenantId_first_match_strip_repeated (ra : Option RealmAccess) :
    (ra = none → extractTenantId ra = none) ∧
    (∀ access, ra = some access →
      ((∀ r ∈ access.roles, isPrefixC tenantMarker r.data = false) →
        extractTenantId ra = none) ∧
      (∀ pre role suf, access.roles = pre ++ role :: suf →
        (∀ x ∈ pre, isPrefixC tenantMarker x.data = false) →
        isPrefixC tenantMarker role.data = true →
        ∃ t k, extractTenantId ra = some t ∧ 1 ≤ k ∧
          role.data = markerRep k ++ t.data ∧
          isPrefixC tenantMarker t.data = false)) := by
  refine ⟨?_, ?_⟩
  · intro h; subst h; rfl
  · intro access h
    subst h
    refine ⟨?_, ?_⟩
    · intro hall
      have : access.roles.find? (fun r => isPrefixC tenantMarker r.data) = none :=
        List.find?_eq_none.mpr fun x hx => by simp [hall x hx]
      simp [extractTenantId, this]
    · intro pre role suf hsplit hpre hrole
      have hfind : access.roles.find? (fun r => isPrefixC tenantMarker r.data) = some role := by
        rw [hsplit]; exact find?_first_match _ pre role suf hpre hrole
      obtain ⟨hp, k, hk⟩ := trimTenantRepeated_spec role.data
      cases k with
      | zero =>
        rw [show markerRep 0 = [] from rfl, List.nil_append] at hk
        rw [hk] at hrole
        rw [hrole] at hp
        cases hp
      | succ k' =>
        refine ⟨String.mk (trimTenantRepeated role.data), k' + 1,
          ?_, Nat.le_add_left 1 k', hk, hp⟩
        simp [extractTenantId, hfind]

/-- Witness for the amended C5 theorem at the roles `["user", "tenant_acme"]`. -/
theorem extractTenantId_first_match_strip_repeated_witness :
    ∃ t k, extractTenantId (some ⟨["user", "tenant_acme"]⟩) = some t ∧ 1 ≤ k ∧
      ("tenant_acme").data = markerRep k ++ t.data ∧
      isPrefixC tenantMarker t.data = false :=
  ((extractTenantId_first_match_strip_repeated (some ⟨["user", "tenant_acme"]⟩)).2
    ⟨["user", "tenant_acme"]⟩ rfl).2 ["user"] ("tenant_acme") [] (by decide) (by decide)
    (by decide)

/-- **C1**: the downstream handler is reached only after the bearer token has
been validated and the resulting `UserInfo` has been attached to the forwarded
request's extensions; a missing/unusable Authorization header or any
validation failure yields a 401 and the downstream handler is not invoked
(the middleware returns an error instead of a forwarded request). -/
theorem process_auth_gate (validate : String → Except AppErr UserInfo) (req : Request) :
    (bearerToken req = none → process_auth validate req = .error 401) ∧
    (∀ t e, bearerToken req = some t → validate t = .error e →
      process_auth validate req = .error 401) ∧
    (∀ out, process_auth validate req = .ok out →
      ∃ t ui, bearerToken req = some t ∧ validate t = .ok ui ∧ out.userInfo = some ui) := by
  refine ⟨?_, ?_, ?_⟩
  · intro h; simp [process_auth, h]
  · intro t e ht he; simp [process_auth, ht, he]
  · intro out hout
    cases hbt : bearerToken req with
    | none => simp [process_auth, hbt] at hout
    | some t =>
      cases hv : validate t with
      | error e => simp [process_auth, hbt, hv] at hout
      | ok ui =>
        simp [process_auth, hbt, hv] at hout
        exact ⟨t, ui, rfl, hv, by rw [← hout]⟩

/-- Witness for C1: a request without Authorization header is rejected with
401, and a request whose token fails validation is rejected with 401. -/
theorem process_auth_gate_witness :
    bearerToken reqNoAuth = none ∧
    process_auth validateAlwaysFail reqNoAuth = .error 401 ∧
    bearerToken reqTok = some ("tok") ∧
    process_auth validateAlwaysFail reqTok = .error 401 := by
  refine ⟨by decide, ?_, by decide, ?_⟩
  · exact (process_auth_gate validateAlwaysFail reqNoAuth).1 (by decide)
  · exact (process_auth_gate validateAlwaysFail reqTok).2.1 ("tok")
      (.authenticationError "bad token") (by decide) (by decide)

/-- **C9**: on successful authentication the middleware forwards a freshly
built request that copies the original's uri, method, headers and carries the
attached `UserInfo`, but whose body is always empty — a non-empty original
body is not observable downstream. -/
theorem process_auth_empty_body (validate : String → Except AppErr UserInfo)
    (req out : Request) :
    process_auth validate req = .ok out →
      out.body = "" ∧ out.uri = req.uri ∧ out.method = req.method ∧
      out.headers = req.headers ∧ (∃ ui, out.userInfo = some ui) := by
  intro hout
  cases hbt : bearerToken req with
  | none => simp [process_auth, hbt] at hout
  | some t =>
    cases hv : validate t with
    | error e => simp [process_auth, hbt, hv] at hout
    | ok ui =>
      simp [process_auth, hbt, hv] at hout
      rw [← hout]
      exact ⟨rfl, rfl, rfl, rfl, ui, rfl⟩

/-- Witness for C9: a request with body `"hello body"` is forwarded with an
empty body and unchanged headers. -/
theorem process_auth_empty_body_witness :
    reqTok.body = "hello body" ∧
    process_auth validateStub reqTok = .ok outTok ∧
    outTok.body = "" ∧ outTok.headers = reqTok.headers ∧
    (∃ ui, outTok.userInfo = some ui) := by
  refine ⟨by decide, by decide, ?_⟩
  have h := process_auth_empty_body validateStub reqTok outTok (by decide)
  exact ⟨h.1, h.2.2.2.1, h.2.2.2.2⟩

/-- **C2** (counterexample): the spec claims a store-connection failure
downgrades to a forced live fetch and does not fail the request.  In the code,
a Redis connection failure is mapped to an `AuthenticationError` and
propagated: `get_jwks` fails even though the IdP fetch would succeed (third
conjunct shows the same environment succeeds once the connection works). -/
theorem get_jwks_conn_failure_counterexample :
    get_jwks envConnFail stEmpty =
      .error (.authenticationError ("Redis connection failed: connection refused")) ∧
    envConnFail.fetch = .ok jwksA ∧
    get_jwks envOk stEmpty = .ok (jwksA, stCached) :=
  ⟨by decide, by decide, by decide⟩

/-- **C2** (amended): a store-connection failure (or a failed store read)
fails the key-set lookup with an authentication error; only a cache **miss**
or an undeserializable cached value downgrades to a live fetch from the IdP,
which succeeds when the fetch and the subsequent cache write succeed. -/
theorem get_jwks_cache_failure_policy (env : JwksEnv) (st : RedisState) :
    (∀ e, env.connect = .error e →
      get_jwks env st = .error (.authenticationError ("Redis connection failed: " ++ e))) ∧
    (∀ e, env.connect = .ok () → env.getOp = .error e →
      get_jwks env st = .error (.authenticationError ("Redis get failed: " ++ e))) ∧
    (env.connect = .ok () → env.getOp = .ok () → st.value = none →
      get_jwks env st = fetchAndCache env st) ∧
    (∀ s, env.connect = .ok () → env.getOp = .ok () → st.value = some s →
      parseJwks s = none → get_jwks env st = fetchAndCache env st) ∧
    (∀ jwks, env.fetch = .ok jwks → env.setOp = .ok () →
      fetchAndCache env st = .ok (jwks, ⟨some (serializeJwks jwks)⟩)) := by
  refine ⟨?_, ?_, ?_, ?_, ?_⟩
  · intro e he; simp [get_jwks, he]
  · intro e hc hg; simp [get_jwks, hc, hg]
  · intro hc hg hv; simp [get_jwks, hc, hg, hv]
  · intro s hc hg hv hp; simp [get_jwks, hc, hg, hv, hp]
  · intro jwks hf hs; simp [fetchAndCache, hf, hs]

/-- Witness for the amended C2 theorem: the connection-failure case and the
miss-then-live-fetch case at concrete environments. -/
theorem get_jwks_cache_failure_policy_witness :
    get_jwks envConnFail stCached =
      .error (.authenticationError ("Redis connection failed: connection refused")) ∧
    get_jwks envOk stEmpty = fetchAndCache envOk stEmpty ∧
    fetchAndCache envOk stEmpty = .ok (jwksA, ⟨some (serializeJwks jwksA)⟩) := by
  refine ⟨?_, ?_, ?_⟩
  · exact (get_jwks_cache_failure_policy envConnFail stCached).1 ("connection refused") (by decide)
  · exact (get_jwks_cache_failure_policy envOk stEmpty).2.2.1 (by decide) (by decide) (by decide)
  · exact (get_jwks_cache_failure_policy envOk stEmpty).2.2.2.2 jwksA (by decide) (by decide)

/-- **C8**: when the cache holds an unexpired, deserializable key set, the
lookup returns that cached set and its result does not depend on the IdP
fetch at all. -/
theorem get_jwks_cached_no_fetch (env : JwksEnv) (st : RedisState) (s : String) (jwks : Jwks) :
    env.connect = .ok () → env.getOp = .ok () → st.value = some s →
    parseJwks s = some jwks →
    get_jwks env st = .ok (jwks, st) ∧
    (∀ f, get_jwks { env with fetch := f } st = .ok (jwks, st)) := by
  intro hc hg hv hp
  constructor
  · simp [get_jwks, hc, hg, hv, hp]
  · intro f; simp [get_jwks, hc, hg, hv, hp]

/-- Witness for C8: with the IdP unreachable but `jwksA` cached, the lookup
returns `jwksA` and a full production-mode token validation succeeds. -/
theorem get_jwks_cached_no_fetch_witness :
    envIdpDown.fetch = .error ("connect timeout") ∧
    get_jwks envIdpDown stCached = .ok (jwksA, stCached) ∧
    validate_keycloak_token prodCfg envIdpDown stCached 2000 tokenProd =
      .ok ⟨"user-2", "bob", none, ["tenant_beta"], some ("beta")⟩ := by
  refine ⟨by decide, ?_, by decide⟩
  exact (get_jwks_cached_no_fetch envIdpDown stCached (serializeJwks jwksA) jwksA
    (by decide) (by decide) (by decide) (by decide)).1

/-- **C7**: a key set fetched live is serialized and written to the cache, and
a later lookup that reads the cached string back deserializes it to a key set
with an identical sequence of key entries. -/
theorem jwks_cache_roundtrip (env env2 : JwksEnv) (st : RedisState) (jwks : Jwks) :
    env.connect = .ok () → env.getOp = .ok () → st.value = none →
    env.fetch = .ok jwks → env.setOp = .ok () →
    env2.connect = .ok () → env2.getOp = .ok () →
    get_jwks env st = .ok (jwks, ⟨some (serializeJwks jwks)⟩) ∧
    ∃ jwks2, get_jwks env2 ⟨some (serializeJwks jwks)⟩ =
        .ok (jwks2, ⟨some (serializeJwks jwks)⟩) ∧
      jwks2.keys = jwks.keys := by
  intro hc hg hv hf hs hc2 hg2
  constructor
  · simp [get_jwks, fetchAndCache, hc, hg, hv, hf, hs]
  · exact ⟨jwks, by simp [get_jwks, hc2, hg2, parseJwks_serializeJwks], rfl⟩

/-- Witness for C7 at the two-key set `jwksA`. -/
theorem jwks_cache_roundtrip_witness :
    get_jwks envOk stEmpty = .ok (jwksA, ⟨some (serializeJwks jwksA)⟩) ∧
    ∃ jwks2, get_jwks envIdpDown ⟨some (serializeJwks jwksA)⟩ =
        .ok (jwks2, ⟨some (serializeJwks jwksA)⟩) ∧
      jwks2.keys = jwksA.keys :=
  jwks_cache_roundtrip envOk envIdpDown stEmpty jwksA (by decide) (by decide) (by decide)
    (by decide) (by decide) (by decide) (by decide)

/-- **C3**: key selection — with a `kid` in the token header, the entry with
that exact id is selected (first such entry) and selection fails with the
unknown-key error when no entry matches; without a `kid`, the first entry is
selected and selection fails only on an empty key set. -/
theorem create_decoding_key_selection (jwks : Jwks) (tok : Token) :
    (∀ kid, tok.header.kid = some kid →
      ((∀ k ∈ jwks.keys, (k.kid == kid) = false) →
        create_decoding_key jwks tok =
          .error (.authenticationError ("No key found with kid: " ++ kid))) ∧
      (∀ pre k suf, jwks.keys = pre ++ k :: suf →
        (∀ x ∈ pre, (x.kid == kid) = false) → k.kid = kid →
        create_decoding_key jwks tok = .ok (.rsa k.n k.e))) ∧
    (tok.header.kid = none →
      (jwks.keys = [] →
        create_decoding_key jwks tok =
          .error (.authenticationError "No keys found in JWKS")) ∧
      (∀ k rest, jwks.keys = k :: rest →
        create_decoding_key jwks tok = .ok (.rsa k.n k.e))) := by
  refine ⟨?_, ?_⟩
  · intro kid hkid
    refine ⟨?_, ?_⟩
    · intro hnone
      have hfind : jwks.keys.find? (fun k => k.kid == kid) = none :=
        List.find?_eq_none.mpr fun x hx => by simp [hnone x hx]
      simp [create_decoding_key, hkid, hfind]
    · intro pre k suf hsplit hpre hk
      have hfind : jwks.keys.find? (fun x => x.kid == kid) = some k := by
        rw [hsplit]
        exact find?_first_match _ pre k suf hpre (by simp [hk])
      simp [create_decoding_key, hkid, hfind]
  · intro hkid
    refine ⟨?_, ?_⟩
    · intro hempty; simp [create_decoding_key, hkid, hempty]
    · intro k rest hsplit; simp [create_decoding_key, hkid, hsplit]

/-- Witness for C3 on the two-key set `jwksA`: matching kid, unknown kid,
absent kid, and empty key set. -/
theorem create_decoding_key_selection_witness :
    create_decoding_key jwksA ⟨⟨.RS256, some ("kidB")⟩, payloadProd, .rsa ("modB") ("AQAB"), .RS256⟩ =
      .ok (.rsa ("modB") ("AQAB")) ∧
    create_decoding_key jwksA ⟨⟨.RS256, some ("nope")⟩, payloadProd, .rsa ("modA") ("AQAB"), .RS256⟩ =
      .error (.authenticationError ("No key found with kid: nope")) ∧
    create_decoding_key jwksA ⟨⟨.RS256, none⟩, payloadProd, .rsa ("modA") ("AQAB"), .RS256⟩ =
      .ok (.rsa ("modA") ("AQAB")) ∧
    create_decoding_key ⟨[]⟩ ⟨⟨.RS256, none⟩, payloadProd, .rsa ("modA") ("AQAB"), .RS256⟩ =
      .error (.authenticationError "No keys found in JWKS") := by
  refine ⟨?_, ?_, ?_, ?_⟩
  · exact ((create_decoding_key_selection jwksA
      ⟨⟨.RS256, some ("kidB")⟩, payloadProd, .rsa ("modB") ("AQAB"), .RS256⟩).1
      ("kidB") rfl).2 [⟨"kidA", "RSA", "modA", "AQAB"⟩] ⟨"kidB", "RSA", "modB", "AQAB"⟩ []
      (by decide) (by decide) rfl
  · exact ((create_decoding_key_selection jwksA
      ⟨⟨.RS256, some ("nope")⟩, payloadProd, .rsa ("modA") ("AQAB"), .RS256⟩).1
      ("nope") rfl).1 (by decide)
  · exact ((create_decoding_key_selection jwksA
      ⟨⟨.RS256, none⟩, payloadProd, .rsa ("modA") ("AQAB"), .RS256⟩).2 rfl).2
      ⟨"kidA", "RSA", "modA", "AQAB"⟩ [⟨"kidB", "RSA", "modB", "AQAB"⟩] rfl
  · exact ((create_decoding_key_selection ⟨[]⟩
      ⟨⟨.RS256, none⟩, payloadProd, .rsa ("modA") ("AQAB"), .RS256⟩).2 rfl).1 rfl

/-- **C4** (counterexample): the claim says every token with
`expiry <= now` fails with `Expired` in both modes.  At the boundary
`exp = now` (with the test branch's zero leeway and the crate's strict
`exp < now - leeway` check) a correctly signed token is **accepted**. -/
theorem validate_token_expiry_counterexample :
    tokenAcme.payload.exp ≤ 2000 ∧
    validate_keycloak_token testCfg envOk stEmpty 2000 tokenAcme = .ok uiStub ∧
    testCfg.verify_token = false :=
  ⟨by decide, by decide, by decide⟩

/-- **C4** (amended): a **validly signed** token whose expiry lies strictly
below the current time minus the leeway (0 in test mode, 60 seconds in
production) fails with the `Expired` kind in both modes; a token with an
invalid signature is always rejected too, but with the `InvalidSignature`
kind, because the signature is checked before the claims. -/
theorem validate_token_expired_with_leeway (cfg : KeycloakConfig) (env : JwksEnv)
    (st : RedisState) (now : Nat) (tok : Token) :
    (cfg.verify_token = false → tok.header.alg = .HS256 →
      tok.sigKey = .secret testSecret → tok.sigAlg = .HS256 →
      tok.payload.exp < now →
      validate_keycloak_token cfg env st now tok =
        .error (.authenticationError ("Test token validation failed: ExpiredSignature"))) ∧
    (∀ jwks st' key, cfg.verify_token = true →
      get_jwks env st = .ok (jwks, st') →
      create_decoding_key jwks tok = .ok key →
      tok.header.alg = .RS256 → tok.sigKey = key → tok.sigAlg = .RS256 →
      tok.payload.exp < now - 60 →
      validate_keycloak_token cfg env st now tok =
        .error (.authenticationError ("Token validation failed: ExpiredSignature"))) ∧
    (cfg.verify_token = false → tok.header.alg = .HS256 →
      tok.sigKey ≠ .secret testSecret →
      validate_keycloak_token cfg env st now tok =
        .error (.authenticationError ("Test token validation failed: InvalidSignature"))) := by
  refine ⟨?_, ?_, ?_⟩
  · intro hvt halg hkey hsalg hexp
    simp [validate_keycloak_token, decodeToken, validateClaims, testValidation, hvt, halg,
      hkey, hsalg, hexp, JwtErr.toMessage]
  · intro jwks st' key hvt hjwks hkeysel halg hsigkey hsigalg hexp
    simp [validate_keycloak_token, decodeToken, validateClaims, prodValidation, claimPresent,
      hvt, hjwks, hkeysel, halg, hsigkey, hsigalg, hexp, JwtErr.toMessage]
  · intro hvt halg hnkey
    have hb : (tok.sigKey == DecodingKey.secret testSecret) = false :=
      beq_eq_false_iff_ne.mpr hnkey
    simp [validate_keycloak_token, decodeToken, testValidation, hvt, halg, hb,
      JwtErr.toMessage]

/-- Witness for the amended C4 theorem: an expired test-mode token, an expired
production token (beyond the 60 s leeway), and a wrongly signed token. -/
theorem validate_token_expired_with_leeway_witness :
    validate_keycloak_token testCfg envOk stEmpty 3000 tokenAcme =
      .error (.authenticationError ("Test token validation failed: ExpiredSignature")) ∧
    validate_keycloak_token prodCfg envOk stEmpty 2100 tokenProd =
      .error (.authenticationError ("Token validation failed: ExpiredSignature")) ∧
    validate_keycloak_token testCfg envOk stEmpty 3000 tokenBadSig =
      .error (.authenticationError ("Test token validation failed: InvalidSignature")) := by
  refine ⟨?_, ?_, ?_⟩
  · exact (validate_token_expired_with_leeway testCfg envOk stEmpty 3000 tokenAcme).1
      rfl rfl rfl rfl (by decide)
  · exact (validate_token_expired_with_leeway prodCfg envOk stEmpty 2100 tokenProd).2.1
      jwksA stCached (.rsa ("modA") ("AQAB")) rfl (by decide) (by decide) rfl rfl rfl
      (by decide)
  · exact (validate_token_expired_with_leeway testCfg envOk stEmpty 3000 tokenBadSig).2.2
      rfl rfl (by decide)

/-- **C6**: the tenant middleware resolves via the `X-Tenant-ID` header first
(the outcome is then independent of the domain lookup) and falls back to the
`Host` domain only when no tenant header is present (the outcome is then
independent of the id lookup); a failed lookup is a 404, an inactive tenant a
403, and a request with neither header a 400.  A `rejected` outcome is by
construction not a `forwarded` one, so the downstream service is not invoked
in any rejection case. -/
theorem tenantCall_resolution (svc : TenantSvc) (req : Request) :
    (∀ v, getHeader req "X-Tenant-ID" = some v → headerToStr v = some v →
      (∀ g, tenantCall { svc with find_by_domain := g } req = tenantCall svc req) ∧
      (∀ e, svc.find_by_id v = .error e →
        tenantCall svc req = .rejected 404 ("Tenant error: " ++ e.toMessage)) ∧
      (∀ t, svc.find_by_id v = .ok t → t.is_active = false →
        tenantCall svc req =
          .rejected 403 ("Tenant error: Tenant error: Tenant is not active"))) ∧
    (getHeader req "X-Tenant-ID" = none →
      (∀ d, getHeader req "Host" = some d → headerToStr d = some d →
        (∀ f, tenantCall { svc with find_by_id := f } req = tenantCall svc req) ∧
        (∀ e, svc.find_by_domain d = .error e →
          tenantCall svc req = .rejected 404 ("Tenant error: " ++ e.toMessage)) ∧
        (∀ t, svc.find_by_domain d = .ok t → t.is_active = false →
          tenantCall svc req =
            .rejected 403 ("Tenant error: Tenant error: Tenant is not active"))) ∧
      (getHeader req "Host" = none →
        tenantCall svc req = .rejected 400 "Missing host header and tenant ID")) := by
  refine ⟨?_, ?_⟩
  · intro v hv hstr
    refine ⟨?_, ?_, ?_⟩
    · intro g; simp [tenantCall, hv, hstr]
    · intro e he; simp [tenantCall, afterLookup, hv, hstr, he]
    · intro t ht hact
      simp [tenantCall, afterLookup, validate_active, AppErr.toMessage, hv, hstr, ht, hact]
  · intro hnone
    refine ⟨?_, ?_⟩
    · intro d hd hstr
      refine ⟨?_, ?_, ?_⟩
      · intro f; simp [tenantCall, hnone, hd, hstr]
      · intro e he; simp [tenantCall, afterLookup, hnone, hd, hstr, he]
      · intro t ht hact
        simp [tenantCall, afterLookup, validate_active, AppErr.toMessage, hnone, hd, hstr,
          ht, hact]
    · intro hhost; simp [tenantCall, hnone, hhost]

/-- Witness for C6: unknown tenant id → 404; inactive tenant → 403; neither
header → 400; header present → domain lookup irrelevant. -/
theorem tenantCall_resolution_witness :
    tenantCall svcA reqTenantUnknown =
      .rejected 404 ("Tenant error: Not found error: Tenant not found") ∧
    tenantCall svcA reqTenantInactive =
      .rejected 403 ("Tenant error: Tenant error: Tenant is not active") ∧
    tenantCall svcA reqBare = .rejected 400 "Missing host header and tenant ID" ∧
    (∀ g, tenantCall { svcA with find_by_domain := g } reqTenantHeader =
      tenantCall svcA reqTenantHeader) := by
  refine ⟨?_, ?_, ?_, ?_⟩
  · exact ((tenantCall_resolution svcA reqTenantUnknown).1 ("unknown-id") (by decide)
      (by decide)).2.1 (.notFoundError "Tenant not found") (by decide)
  · exact ((tenantCall_resolution svcA reqTenantInactive).1 ("t-2") (by decide)
      (by decide)).2.2 tenantInactive (by decide) (by decide)
  · exact ((tenantCall_resolution svcA reqBare).2 (by decide)).2 (by decide)
  · exact ((tenantCall_resolution svcA reqTenantHeader).1 ("t-1") (by decide)
      (by decide)).1

/-- **C10**: a tenant-id string that does not parse as a UUID is rejected by
`find_by_id` with a validation error whose outcome is independent of the
database (no query is consulted: the lookup function is only ever applied to
parsed UUID digits), and the `TenantInfo` extractor rejects a non-UUID
`X-Tenant-ID` header with a validation rejection independent of both the
connection attempt and the query. -/
theorem find_by_id_rejects_non_uuid (q q' : List Char → Except String (Option Tenant))
    (connect connect' : Except String Unit) (req : Request) (frid : String) (id : String) :
    (parseUuid id = none →
      tenantService_find_by_id q id = .error (.validationError "Invalid UUID format") ∧
      tenantService_find_by_id q id = tenantService_find_by_id q' id) ∧
    (∀ v, getHeader req "X-Tenant-ID" = some v → headerToStr v = some v →
      parseUuid v = none →
      tenantInfo_from_request_parts connect q req frid =
        .error (.validationError "Invalid tenant ID") ∧
      tenantInfo_from_request_parts connect q req frid =
        tenantInfo_from_request_parts connect' q' req frid) := by
  refine ⟨?_, ?_⟩
  · intro hp
    exact ⟨by simp [tenantService_find_by_id, hp], by simp [tenantService_find_by_id, hp]⟩
  · intro v hv hstr hp
    exact ⟨by simp [tenantInfo_from_request_parts, hv, hstr, hp],
      by simp [tenantInfo_from_request_parts, hv, hstr, hp]⟩

/-- Witness for C10 at the id `"unknown-id"` (not a UUID). -/
theorem find_by_id_rejects_non_uuid_witness :
    parseUuid ("unknown-id") = none ∧
    tenantService_find_by_id queryFail ("unknown-id") =
      .error (.validationError "Invalid UUID format") ∧
    tenantService_find_by_id queryFail ("unknown-id") =
      tenantService_find_by_id queryHit ("unknown-id") ∧
    tenantInfo_from_request_parts (.ok ()) queryFail reqTenantUnknown ("fresh") =
      .error (.validationError "Invalid tenant ID") ∧
    tenantInfo_from_request_parts (.ok ()) queryFail reqTenantUnknown ("fresh") =
      tenantInfo_from_request_parts (.error ("db down")) queryHit reqTenantUnknown ("fresh") := by
  have h := find_by_id_rejects_non_uuid queryFail queryHit (.ok ()) (.error ("db down"))
    reqTenantUnknown ("fresh") ("unknown-id")
  have h1 := h.1 (by decide)
  have h2 := h.2 ("unknown-id") (by decide) (by decide) (by decide)
  exact ⟨by decide, h1.1, h1.2, h2.1, h2.2⟩
